import Mathlib

/-!
Verification of the house-price-predictor web service.

A shallow embedding of the repository's decision logic:
api.py (prediction formula, payload validation, auth token service,
credential store, prediction store CRUD) and src/predict.py
(feature alignment for the pipeline variant).  Machine integers are
modelled as Int, Python floats as Rat (all arithmetic in scope is
exact), datetimes as Nat timestamps, and the relational store as
explicit lists threaded through state-passing handlers.
-/

namespace HousePrice

/-- A Python value as it appears in a JSON-ish payload or DataFrame cell:
int, float, string or bool. -/
inductive PyVal where
  | int (z : Int)
  | float (q : Rat)
  | str (s : String)
  | bool (b : Bool)
deriving DecidableEq

/-- HTTP error raised by a handler: status code and detail string,
mirroring fastapi.HTTPException. -/
structure HttpError where
  status : Nat
  detail : String
deriving DecidableEq

/-- users table row (api.py class User): id, username, password_hash,
created_at. -/
structure User where
  id : Nat
  username : String
  password_hash : String
  created_at : Nat
deriving DecidableEq

/-- The validated predict payload (api.py class PredictIn): counts are
Python ints (Int here, pydantic imposes no bounds), sizes are floats
(Rat here). -/
structure PredictIn where
  suburb : String
  property_type : String
  bedrooms : Int
  bathrooms : Int
  parking : Int
  land_size : Rat
  building_size : Rat
  postcode : String
  schools_nearby : Int
deriving DecidableEq

/-- predictions table row (api.py class Prediction): the payload fields
plus id, derived price and created_at. -/
structure Prediction extends PredictIn where
  id : Nat
  price : Rat
  created_at : Nat
deriving DecidableEq

/-- The relational store plus the autoincrement counters of the two
tables. -/
structure Db where
  users : List User
  predictions : List Prediction
  next_user_id : Nat
  next_pred_id : Nat
deriving DecidableEq

/-- api.py ACCESS_TOKEN_EXPIRE_MINUTES = 60. -/
def ACCESS_TOKEN_EXPIRE_MINUTES : Nat := 60

/-- A decoded JWT as the service uses it: optional sub claim, expiry
timestamp (minutes), and the key it was signed with.  Signature
verification is modelled as comparing the signing key with the
verifier's secret. -/
structure Token where
  sub : Option String
  exp : Nat
  key : String
deriving DecidableEq

/-- api.py create_access_token: copy the data (here just the optional
sub claim) and add exp = now + expires_minutes, signing with the
secret. -/
def create_access_token (secret : String) (sub : Option String) (now expires_minutes : Nat) :
    Token :=
  { sub := sub, exp := now + expires_minutes, key := secret }

/-- jose jwt.decode as used in get_current_user: fails (None) on a
signature that does not verify or on exp earlier than the current
time, otherwise returns the claims. -/
def jwt_decode (secret : String) (tok : Token) (now : Nat) : Option Token :=
  if tok.key = secret then
    if tok.exp < now then none else some tok
  else none

/-- api.py cred_exc: HTTPException(401, "Invalid or expired token"). -/
def cred_exc : HttpError := { status := 401, detail := "Invalid or expired token" }

/-- api.py get_current_user: decode and verify the token, reject a
missing or empty sub claim, then look the username up in the users
table. -/
def get_current_user (secret : String) (db : Db) (tok : Token) (now : Nat) :
    Except HttpError User :=
  match jwt_decode secret tok now with
  | none => .error cred_exc
  | some payload =>
    match payload.sub with
    | none => .error cred_exc
    | some username =>
      if username = "" then .error cred_exc
      else
        match db.users.find? (fun u => u.username == username) with
        | none => .error cred_exc
        | some u => .ok u

/-- api.py RegisterIn: username and password strings (length bounds are
3..64 and 6..128; they play no role in the claims below). -/
structure RegisterIn where
  username : String
  password : String
deriving DecidableEq

/-- api.py HTTPException(409, "Username already exists"). -/
def conflict_exc : HttpError := { status := 409, detail := "Username already exists" }

/-- api.py register handler: 409 if the username already exists,
otherwise insert a row with the password hash.  The one-way hash
(passlib pbkdf2_sha256, platform library code) is a parameter. -/
def register (hash_password : String → String) (db : Db) (now : Nat) (data : RegisterIn) :
    Db × Except HttpError String :=
  if (db.users.find? (fun u => u.username == data.username)).isSome then
    (db, .error conflict_exc)
  else
    ({ db with
        users := db.users ++
          [{ id := db.next_user_id, username := data.username,
             password_hash := hash_password data.password, created_at := now }],
        next_user_id := db.next_user_id + 1 },
     .ok "created")

/-- api.py calc_price: base 500000 plus the weighted fields. -/
def calc_price (inp : PredictIn) : Rat :=
  let base : Rat := 500000
  let base := base + inp.bedrooms * 80000 + inp.bathrooms * 60000 + inp.parking * 20000
  let base := base + inp.land_size * 500 + inp.building_size * 1200
  base

/-- pydantic type validation of the PredictIn schema: read each declared
field from the raw payload with the declared type (int fields take
ints, float fields take floats or ints, str fields take strs).  No
field has a range constraint in api.py. -/
def validate_predict_in (j : List (String × PyVal)) : Option PredictIn := do
  let asInt : PyVal → Option Int := fun v =>
    match v with
    | .int z => some z
    | _ => none
  let asFloat : PyVal → Option Rat := fun v =>
    match v with
    | .float q => some q
    | .int z => some (z : Rat)
    | _ => none
  let asStr : PyVal → Option String := fun v =>
    match v with
    | .str s => some s
    | _ => none
  let suburb ← (List.lookup "suburb" j).bind asStr
  let property_type ← (List.lookup "property_type" j).bind asStr
  let bedrooms ← (List.lookup "bedrooms" j).bind asInt
  let bathrooms ← (List.lookup "bathrooms" j).bind asInt
  let parking ← (List.lookup "parking" j).bind asInt
  let land_size ← (List.lookup "land_size" j).bind asFloat
  let building_size ← (List.lookup "building_size" j).bind asFloat
  let postcode ← (List.lookup "postcode" j).bind asStr
  let schools_nearby ← (List.lookup "schools_nearby" j).bind asInt
  pure { suburb := suburb, property_type := property_type, bedrooms := bedrooms,
         bathrooms := bathrooms, parking := parking, land_size := land_size,
         building_size := building_size, postcode := postcode,
         schools_nearby := schools_nearby }

/-- Serialise a structured payload back to raw fields (the image of the
schema under its declared field types). -/
def predict_in_fields (p : PredictIn) : List (String × PyVal) :=
  [("suburb", .str p.suburb), ("property_type", .str p.property_type),
   ("bedrooms", .int p.bedrooms), ("bathrooms", .int p.bathrooms),
   ("parking", .int p.parking), ("land_size", .float p.land_size),
   ("building_size", .float p.building_size), ("postcode", .str p.postcode),
   ("schools_nearby", .int p.schools_nearby)]

/-- api.py predict handler body (after auth): compute the price, insert
the row (autoincrement id, created_at now), return the created
record. -/
def predict (db : Db) (payload : PredictIn) (now : Nat) : Db × Prediction :=
  let price := calc_price payload
  let obj : Prediction :=
    { toPredictIn := payload, id := db.next_pred_id, price := price, created_at := now }
  ({ db with predictions := db.predictions ++ [obj], next_pred_id := db.next_pred_id + 1 },
   obj)

/-- Ordering used by list_records: Prediction.id.desc(). -/
def recency (a b : Prediction) : Prop := b.id ≤ a.id

instance : DecidableRel recency := fun a b => Nat.decLe b.id a.id

instance : IsTotal Prediction recency :=
  ⟨fun a b => (Nat.le_total b.id a.id).imp id id⟩

instance : IsTrans Prediction recency :=
  ⟨fun _ _ _ hab hbc => Nat.le_trans hbc hab⟩

/-- api.py list_records handler body (after auth): all rows ordered by
id descending. -/
def list_records (db : Db) : List Prediction :=
  List.insertionSort recency db.predictions

/-- api.py HTTPException(404, "Not found"). -/
def not_found_exc : HttpError := { status := 404, detail := "Not found" }

/-- api.py delete_record handler body (after auth): find the first row
with the given id; 404 and unchanged store if absent, otherwise
delete that row and answer with the id. -/
def delete_record (db : Db) (rid : Nat) : Db × Except HttpError Nat :=
  match db.predictions.find? (fun p => p.id == rid) with
  | none => (db, .error not_found_exc)
  | some _ =>
    ({ db with predictions := db.predictions.eraseP (fun p => p.id == rid) }, .ok rid)

/-- A pipeline step as _expected_feature_names sees it: it may or may
not carry the fitted attribute feature_names_in_. -/
structure SkStep where
  feature_names_in : Option (List String)
deriving DecidableEq

/-- A loaded model as src/predict.py introspects it: an optional
feature_names_in_ attribute and, when it is a pipeline, named_steps. -/
structure SkModel where
  feature_names_in : Option (List String)
  named_steps : Option (List (String × SkStep))
deriving DecidableEq

/-- Lookup of one named step's fitted feature names
(named_steps.get(key) plus the hasattr check). -/
def step_feature_names (steps : List (String × SkStep)) (key : String) :
    Option (List String) :=
  match List.lookup key steps with
  | none => none
  | some pre => pre.feature_names_in

/-- src/predict.py _expected_feature_names: the model's own
feature_names_in_ if present, else the first of the named steps
"preprocessor" then "pre" that carries one, else None. -/
def expected_feature_names (m : SkModel) : Option (List String) :=
  match m.feature_names_in with
  | some l => some l
  | none =>
    match m.named_steps with
    | none => none
    | some steps =>
      match step_feature_names steps "preprocessor" with
      | some l => some l
      | none => step_feature_names steps "pre"

/-- The per-column value of the row built by _align_payload's loop:
payload[c] when present; the land_size / building_size aliases for
the *_sqm columns; payload.get("schools_nearby", 0); 0 for
above_suburb_median; 0.0 for the two price_per columns; 0
otherwise. -/
def align_col (payload : List (String × PyVal)) (c : String) : PyVal :=
  match List.lookup c payload with
  | some v => v
  | none =>
    if c = "land_size_sqm" ∧ (List.lookup "land_size" payload).isSome then
      (List.lookup "land_size" payload).getD (.int 0)
    else if c = "building_size_sqm" ∧ (List.lookup "building_size" payload).isSome then
      (List.lookup "building_size" payload).getD (.int 0)
    else if c = "schools_nearby" then
      (List.lookup "schools_nearby" payload).getD (.int 0)
    else if c = "above_suburb_median" then
      .int 0
    else if c = "price_per_land_sqm" ∨ c = "price_per_building_sqm" then
      .float 0
    else
      .int 0

/-- src/predict.py _align_payload: when the model declares no expected
columns (None or an empty list, both falsy) the payload itself is
the single row; otherwise build one cell per expected column. -/
def align_payload (payload : List (String × PyVal)) (m : SkModel) :
    List (String × PyVal) :=
  match expected_feature_names m with
  | none => payload
  | some cols =>
    if cols = [] then payload
    else cols.map (fun c => (c, align_col payload c))

/-- The invariant of claim C9: every stored record's price is
calc_price of its feature fields. -/
def store_invariant (db : Db) : Prop :=
  ∀ p ∈ db.predictions, p.price = calc_price p.toPredictIn

/-- The worked example payload of the spec: 3 bedrooms, 2 bathrooms,
1 parking spot, 450 sqm land, 120 sqm building. -/
def example_payload : PredictIn :=
  { suburb := "Box Hill", property_type := "House", bedrooms := 3, bathrooms := 2,
    parking := 1, land_size := 450, building_size := 120, postcode := "3128",
    schools_nearby := 1 }

/-- A raw predict request whose fields are all well typed but whose
bedrooms count is negative. -/
def negative_bedrooms_payload : List (String × PyVal) :=
  [("suburb", .str "Box Hill"), ("property_type", .str "House"),
   ("bedrooms", .int (-1)), ("bathrooms", .int 2), ("parking", .int 1),
   ("land_size", .float 450), ("building_size", .float 120),
   ("postcode", .str "3128"), ("schools_nearby", .int 1)]

/-- The structured payload that validation produces from
negative_bedrooms_payload. -/
def negative_bedrooms_in : PredictIn :=
  { suburb := "Box Hill", property_type := "House", bedrooms := -1, bathrooms := 2,
    parking := 1, land_size := 450, building_size := 120, postcode := "3128",
    schools_nearby := 1 }

/-- A well-typed payload with minus ten bedrooms and every other
numeric field zero; its formula price is negative. -/
def minus_ten_bedrooms_in : PredictIn :=
  { suburb := "X", property_type := "House", bedrooms := -10, bathrooms := 0,
    parking := 0, land_size := 0, building_size := 0, postcode := "0",
    schools_nearby := 0 }

/-- A stored record of the worked example, with the price the formula
assigns it. -/
def sample_record₁ : Prediction := ⟨example_payload, 1, 1249000, 10⟩

/-- A later stored record of the same features (larger id, later
creation time). -/
def sample_record₂ : Prediction := ⟨example_payload, 2, 1249000, 20⟩

/-- A two-record prediction store. -/
def sample_store : Db := ⟨[], [sample_record₁, sample_record₂], 1, 3⟩

/-- A model declaring five expected columns, one of them the land-size
alias, one unknown to the payload. -/
def sample_model : SkModel :=
  ⟨some ["bedrooms", "land_size_sqm", "above_suburb_median", "price_per_land_sqm",
         "frontage"], none⟩

/-- A two-field raw payload for the alignment witness. -/
def sample_payload : List (String × PyVal) :=
  [("bedrooms", .int 3), ("land_size", .float 450)]

/-- A pipeline whose steps carry no fitted feature names, so the
best-effort lookup finds none. -/
def no_schema_model : SkModel := ⟨none, some [("scaler", ⟨none⟩)]⟩

/-- Claim C1: calc_price implements exactly the linear formula
500000 + bedrooms×80000 + bathrooms×60000 + parking×20000 +
land_size×500 + building_size×1200, and the spec's worked example
payload (3 bed, 2 bath, 1 parking, 450 land, 120 building) yields
exactly 1249000. -/
theorem example_payload_price : calc_price example_payload = 1249000 := by
  norm_num [calc_price, example_payload]

theorem calc_price_is_linear_formula :
    (∀ inp : PredictIn,
      calc_price inp =
        500000 + inp.bedrooms * 80000 + inp.bathrooms * 60000 + inp.parking * 20000 +
          inp.land_size * 500 + inp.building_size * 1200) ∧
    calc_price example_payload = 1249000 :=
  ⟨fun _ => rfl, example_payload_price⟩

/-- Claim C3 counterexample: the predict schema accepts a payload with
a negative bedrooms count — type validation passes and produces a
structured payload with bedrooms = -1 < 0, so the operation does not
reject negative counts. -/
theorem validate_accepts_negative_bedrooms :
    validate_predict_in negative_bedrooms_payload = some negative_bedrooms_in ∧
    negative_bedrooms_in.bedrooms < 0 := by
  exact ⟨rfl, by decide⟩

/-- Claim C3 amended: payload validation is type validation only —
every payload whose fields carry the declared types is accepted,
including payloads with negative counts and sizes; no range check is
applied. -/
theorem validate_predict_in_is_type_validation_only (p : PredictIn) :
    validate_predict_in (predict_in_fields p) = some p := by
  rfl

/-- Claim C4 counterexample: a payload that passes validation (all
fields well typed) whose predicted price is negative: minus ten
bedrooms and zero for the other numeric fields prices at -300000. -/
theorem valid_payload_with_negative_price :
    validate_predict_in (predict_in_fields minus_ten_bedrooms_in) =
      some minus_ten_bedrooms_in ∧
    calc_price minus_ten_bedrooms_in < 0 := by
  refine ⟨rfl, ?_⟩
  norm_num [calc_price, minus_ten_bedrooms_in]

/-- Claim C4 amended: prediction is deterministic — the price of a
predict call depends only on the payload, never on the store state
or the call time, for every payload including those with negative
fields — and for every payload whose counts and sizes are
non-negative the predicted price is non-negative. -/
theorem calc_price_nonneg_and_deterministic (p : PredictIn) (db₁ db₂ : Db) (t₁ t₂ : Nat) :
    (predict db₁ p t₁).2.price = (predict db₂ p t₂).2.price ∧
    (0 ≤ p.bedrooms → 0 ≤ p.bathrooms → 0 ≤ p.parking → 0 ≤ p.land_size →
      0 ≤ p.building_size → 0 ≤ calc_price p) := by
  refine ⟨rfl, ?_⟩
  intro hbed hbath hpark hland hbuild
  have hb : (0 : Rat) ≤ (p.bedrooms : Rat) := by exact_mod_cast hbed
  have hba : (0 : Rat) ≤ (p.bathrooms : Rat) := by exact_mod_cast hbath
  have hpa : (0 : Rat) ≤ (p.parking : Rat) := by exact_mod_cast hpark
  have hform : calc_price p =
      500000 + (p.bedrooms : Rat) * 80000 + (p.bathrooms : Rat) * 60000 +
        (p.parking : Rat) * 20000 + p.land_size * 500 + p.building_size * 1200 := rfl
  rw [hform]
  nlinarith [hland, hbuild, hb, hba, hpa]

/-- Witness for the amended claim C4: determinism across two distinct
store states and call times for the negative-count payload that
validation accepts, and non-negativity at the spec's worked
example. -/
theorem calc_price_nonneg_and_deterministic_witness :
    (predict ⟨[], [], 1, 1⟩ minus_ten_bedrooms_in 5).2.price =
      (predict ⟨[], [], 7, 9⟩ minus_ten_bedrooms_in 11).2.price ∧
    0 ≤ calc_price example_payload :=
  ⟨(calc_price_nonneg_and_deterministic minus_ten_bedrooms_in
      ⟨[], [], 1, 1⟩ ⟨[], [], 7, 9⟩ 5 11).1,
   (calc_price_nonneg_and_deterministic example_payload
      ⟨[], [], 1, 1⟩ ⟨[], [], 7, 9⟩ 5 11).2
     (by decide) (by decide) (by decide) (by decide) (by decide)⟩

/-- Claim C5: a token issued for a registered user U at time t
validates to identity U at every time strictly before t plus the
fixed lifetime; validation answers 401 on a token past its expiry,
on a signature that does not verify, and on a token with no subject
claim.  (Registered usernames are non-empty: RegisterIn enforces a
minimum length of 3.) -/
theorem token_validates_until_expiry (secret : String) (db : Db) (U : User) (tok : Token)
    (t tq : Nat)
    (hfind : db.users.find? (fun u => u.username == U.username) = some U)
    (hname : U.username ≠ "")
    (hfresh : tq < t + ACCESS_TOKEN_EXPIRE_MINUTES) :
    get_current_user secret db
        (create_access_token secret (some U.username) t ACCESS_TOKEN_EXPIRE_MINUTES) tq =
      .ok U ∧
    (tok.exp < tq → get_current_user secret db tok tq = .error cred_exc) ∧
    (tok.key ≠ secret → get_current_user secret db tok tq = .error cred_exc) ∧
    (tok.sub = none → get_current_user secret db tok tq = .error cred_exc) := by
  refine ⟨?_, ?_, ?_, ?_⟩
  · simp [get_current_user, create_access_token, jwt_decode, Nat.lt_asymm hfresh,
      hname, hfind]
  · intro hexp
    by_cases hk : tok.key = secret
    · simp [get_current_user, jwt_decode, hk, hexp]
    · simp [get_current_user, jwt_decode, hk]
  · intro hk
    simp [get_current_user, jwt_decode, hk]
  · intro hsub
    by_cases hk : tok.key = secret
    · by_cases hexp : tok.exp < tq
      · simp [get_current_user, jwt_decode, hk, hexp]
      · simp [get_current_user, jwt_decode, hk, hexp, hsub]
    · simp [get_current_user, jwt_decode, hk]

/-- Witness for claim C5: a one-user store, a token issued at minute
100 and checked at minute 130, and a concrete unsigned subjectless
token for the failure conjuncts. -/
theorem token_validates_until_expiry_witness :
    get_current_user "s" ⟨[⟨1, "alice", "h", 0⟩], [], 2, 1⟩
        (create_access_token "s" (some "alice") 100 ACCESS_TOKEN_EXPIRE_MINUTES) 130 =
      .ok ⟨1, "alice", "h", 0⟩ ∧
    ((Token.mk none 0 "x").exp < 130 →
      get_current_user "s" ⟨[⟨1, "alice", "h", 0⟩], [], 2, 1⟩ (Token.mk none 0 "x") 130 =
        .error cred_exc) ∧
    ((Token.mk none 0 "x").key ≠ "s" →
      get_current_user "s" ⟨[⟨1, "alice", "h", 0⟩], [], 2, 1⟩ (Token.mk none 0 "x") 130 =
        .error cred_exc) ∧
    ((Token.mk none 0 "x").sub = none →
      get_current_user "s" ⟨[⟨1, "alice", "h", 0⟩], [], 2, 1⟩ (Token.mk none 0 "x") 130 =
        .error cred_exc) :=
  token_validates_until_expiry "s" ⟨[⟨1, "alice", "h", 0⟩], [], 2, 1⟩ ⟨1, "alice", "h", 0⟩
    (Token.mk none 0 "x") 100 130 (by decide) (by decide) (by decide)

/-- Claim C6: register answers 409 exactly when the username is already
stored; otherwise it answers created and stores the username with
the one-way hash of the password (never the password itself, the
hash function being passlib's pbkdf2_sha256); hence registering the
same username twice always yields a conflict on the second
attempt. -/
theorem register_found_eq (hash_password : String → String) (db : Db) (now : Nat)
    (data : RegisterIn)
    (h : (db.users.find? (fun u => u.username == data.username)).isSome) :
    register hash_password db now data = (db, .error conflict_exc) := by
  unfold register
  rw [if_pos h]

theorem register_fresh_eq (hash_password : String → String) (db : Db) (now : Nat)
    (data : RegisterIn)
    (h : ¬ (db.users.find? (fun u => u.username == data.username)).isSome) :
    register hash_password db now data =
      ({ db with
          users := db.users ++
            [{ id := db.next_user_id, username := data.username,
               password_hash := hash_password data.password, created_at := now }],
          next_user_id := db.next_user_id + 1 }, .ok "created") := by
  unfold register
  rw [if_neg h]

theorem register_conflict_iff_exists (hash_password : String → String) (db : Db)
    (now now₂ : Nat) (data : RegisterIn) :
    ((register hash_password db now data).2 = .error conflict_exc ↔
      ∃ u ∈ db.users, u.username = data.username) ∧
    ((¬ ∃ u ∈ db.users, u.username = data.username) →
      (register hash_password db now data).2 = .ok "created" ∧
      ∃ u ∈ (register hash_password db now data).1.users,
        u.username = data.username ∧ u.password_hash = hash_password data.password ∧
        (hash_password data.password ≠ data.password → u.password_hash ≠ data.password)) ∧
    (register hash_password (register hash_password db now data).1 now₂ data).2 =
      .error conflict_exc := by
  have hiff : ∀ l : List User,
      (l.find? (fun u => u.username == data.username)).isSome ↔
        ∃ u ∈ l, u.username = data.username := by
    intro l
    rw [List.find?_isSome]
    simp
  by_cases hs : (db.users.find? (fun u => u.username == data.username)).isSome
  · have hr := register_found_eq hash_password db now data hs
    refine ⟨?_, ?_, ?_⟩
    · rw [hr]
      exact ⟨fun _ => (hiff db.users).mp hs, fun _ => rfl⟩
    · intro hno
      exact absurd ((hiff db.users).mp hs) hno
    · rw [hr, register_found_eq hash_password db now₂ data hs]
  · have hr := register_fresh_eq hash_password db now data hs
    have hmem : (⟨db.next_user_id, data.username, hash_password data.password, now⟩ : User) ∈
        (register hash_password db now data).1.users := by
      rw [hr]
      exact List.mem_append_right _ (List.mem_singleton_self _)
    refine ⟨?_, fun _ => ⟨?_, ?_⟩, ?_⟩
    · rw [hr]
      constructor
      · intro habs
        exact Except.noConfusion habs
      · intro hex
        exact absurd ((hiff db.users).mpr hex) hs
    · rw [hr]
    · exact ⟨_, hmem, rfl, rfl, fun h => h⟩
    · have hs₂ : (((register hash_password db now data).1.users).find?
          (fun u => u.username == data.username)).isSome :=
        (hiff _).mpr ⟨_, hmem, rfl⟩
      rw [register_found_eq hash_password _ now₂ data hs₂]

/-- Witness for claim C6: a fresh store, then the same username
registered twice under a concrete stand-in hash function. -/
theorem register_conflict_iff_exists_witness :
    ((register (fun p => String.append "hash:" p) ⟨[], [], 1, 1⟩ 0 ⟨"alice", "secret7"⟩).2 =
        .error conflict_exc ↔
      ∃ u ∈ ([] : List User), u.username = "alice") ∧
    ((¬ ∃ u ∈ ([] : List User), u.username = "alice") →
      (register (fun p => String.append "hash:" p) ⟨[], [], 1, 1⟩ 0 ⟨"alice", "secret7"⟩).2 =
        .ok "created" ∧
      ∃ u ∈ (register (fun p => String.append "hash:" p) ⟨[], [], 1, 1⟩ 0
          ⟨"alice", "secret7"⟩).1.users,
        u.username = "alice" ∧
        u.password_hash = (fun p => String.append "hash:" p) "secret7" ∧
        ((fun p => String.append "hash:" p) "secret7" ≠ "secret7" →
          u.password_hash ≠ "secret7")) ∧
    (register (fun p => String.append "hash:" p)
        (register (fun p => String.append "hash:" p) ⟨[], [], 1, 1⟩ 0
          ⟨"alice", "secret7"⟩).1 3 ⟨"alice", "secret7"⟩).2 = .error conflict_exc :=
  register_conflict_iff_exists (fun p => String.append "hash:" p) ⟨[], [], 1, 1⟩ 0 3
    ⟨"alice", "secret7"⟩

theorem mem_list_records (db : Db) (q : Prediction) :
    q ∈ list_records db ↔ q ∈ db.predictions :=
  (List.perm_insertionSort recency db.predictions).mem_iff

theorem delete_record_missing_eq (db : Db) (rid : Nat)
    (h : db.predictions.find? (fun p => p.id == rid) = none) :
    delete_record db rid = (db, .error not_found_exc) := by
  unfold delete_record
  rw [h]

theorem delete_record_found_eq (db : Db) (rid : Nat) (row : Prediction)
    (h : db.predictions.find? (fun p => p.id == rid) = some row) :
    delete_record db rid =
      ({ db with predictions := db.predictions.eraseP (fun p => p.id == rid) }, .ok rid) := by
  unfold delete_record
  rw [h]

theorem mem_eraseP_id_iff (rid : Nat) :
    ∀ l : List Prediction, (l.map (fun p => p.id)).Nodup →
      (∃ q ∈ l, q.id = rid) →
      ∀ p, p ∈ l.eraseP (fun q => q.id == rid) ↔ p ∈ l ∧ p.id ≠ rid := by
  intro l
  induction l with
  | nil =>
    intro _ hex
    exact absurd hex (by simp)
  | cons a l ih =>
    intro hnd hex p
    have hnd' : (l.map (fun p => p.id)).Nodup := by
      rw [List.map_cons] at hnd
      exact hnd.of_cons
    by_cases ha : a.id = rid
    · rw [List.eraseP_cons_of_pos (by simp [ha])]
      constructor
      · intro hp
        refine ⟨List.mem_cons_of_mem _ hp, fun hpid => ?_⟩
        have hin : p.id ∈ l.map (fun q => q.id) := List.mem_map_of_mem _ hp
        rw [List.map_cons] at hnd
        rw [hpid, ← ha] at hin
        exact (List.nodup_cons.mp hnd).1 hin
      · intro hp
        rcases List.mem_cons.mp hp.1 with rfl | hpl
        · exact absurd ha hp.2
        · exact hpl
    · rw [List.eraseP_cons_of_neg (by simp [ha])]
      have hex' : ∃ q ∈ l, q.id = rid := by
        obtain ⟨q, hq, hqid⟩ := hex
        rcases List.mem_cons.mp hq with rfl | hql
        · exact absurd hqid ha
        · exact ⟨q, hql, hqid⟩
      constructor
      · intro hp
        rcases List.mem_cons.mp hp with rfl | hpe
        · exact ⟨List.mem_cons_self _ _, ha⟩
        · have hres := (ih hnd' hex' p).mp hpe
          exact ⟨List.mem_cons_of_mem _ hres.1, hres.2⟩
      · intro hp
        rcases List.mem_cons.mp hp.1 with rfl | hpl
        · exact List.mem_cons_self _ _
        · exact List.mem_cons_of_mem _ ((ih hnd' hex' p).mpr ⟨hpl, hp.2⟩)

/-- Claim C7: when a record with the given id exists, delete answers
deleted-id and the new store holds exactly the other records; when
none exists it answers 404 and leaves the store unchanged; in both
cases listing after the delete never shows the deleted id.  (Ids are
unique: the id column is the autoincrement primary key.) -/
theorem delete_then_list_excludes_id (db : Db) (rid : Nat)
    (hnd : (db.predictions.map (fun p => p.id)).Nodup) :
    ((∃ row ∈ db.predictions, row.id = rid) →
      (delete_record db rid).2 = .ok rid ∧
      ∀ p, p ∈ (delete_record db rid).1.predictions ↔ p ∈ db.predictions ∧ p.id ≠ rid) ∧
    ((¬ ∃ row ∈ db.predictions, row.id = rid) →
      (delete_record db rid).2 = .error not_found_exc ∧ (delete_record db rid).1 = db) ∧
    ∀ q ∈ list_records (delete_record db rid).1, q.id ≠ rid := by
  by_cases hex : ∃ row ∈ db.predictions, row.id = rid
  · obtain ⟨row, hrow, hrid⟩ := hex
    have hfind : (db.predictions.find? (fun p => p.id == rid)).isSome := by
      rw [List.find?_isSome]
      exact ⟨row, hrow, by simp [hrid]⟩
    obtain ⟨row', hr'⟩ := Option.isSome_iff_exists.mp hfind
    have hdel := delete_record_found_eq db rid row' hr'
    have hmem := mem_eraseP_id_iff rid db.predictions hnd ⟨row, hrow, hrid⟩
    refine ⟨fun _ => ⟨by rw [hdel], fun p => by rw [hdel]; exact hmem p⟩,
            fun hno => absurd ⟨row, hrow, hrid⟩ hno, ?_⟩
    intro q hq
    rw [hdel] at hq
    exact ((hmem q).mp ((mem_list_records _ q).mp hq)).2
  · have hfind : db.predictions.find? (fun p => p.id == rid) = none := by
      rw [List.find?_eq_none]
      intro x hx hxr
      exact hex ⟨x, hx, by simpa using hxr⟩
    have hdel := delete_record_missing_eq db rid hfind
    refine ⟨fun hex₂ => absurd hex₂ hex, fun _ => ⟨by rw [hdel], by rw [hdel]⟩, ?_⟩
    intro q hq hqid
    rw [hdel] at hq
    exact hex ⟨q, (mem_list_records db q).mp hq, hqid⟩

/-- Witness for claim C7 on the two-record store, deleting id 1. -/
theorem delete_then_list_excludes_id_witness :
    ((∃ row ∈ sample_store.predictions, row.id = 1) →
      (delete_record sample_store 1).2 = .ok 1 ∧
      ∀ p, p ∈ (delete_record sample_store 1).1.predictions ↔
        p ∈ sample_store.predictions ∧ p.id ≠ 1) ∧
    ((¬ ∃ row ∈ sample_store.predictions, row.id = 1) →
      (delete_record sample_store 1).2 = .error not_found_exc ∧
      (delete_record sample_store 1).1 = sample_store) ∧
    ∀ q ∈ list_records (delete_record sample_store 1).1, q.id ≠ 1 :=
  delete_then_list_excludes_id sample_store 1 (by decide)

/-- Claim C8: list_records returns every stored record (a permutation
of the store) ordered most recent first — under the store's id
discipline (the autoincrement id order agrees with creation-time
order) the output is sorted newest creation time first. -/
theorem list_records_all_newest_first (db : Db)
    (hmono : ∀ p ∈ db.predictions, ∀ q ∈ db.predictions,
      p.id ≤ q.id → p.created_at ≤ q.created_at) :
    List.Perm (list_records db) db.predictions ∧
    (list_records db).Pairwise (fun a b => b.created_at ≤ a.created_at) := by
  have hperm := List.perm_insertionSort recency db.predictions
  refine ⟨hperm, ?_⟩
  have hsorted : (list_records db).Pairwise recency :=
    List.sorted_insertionSort recency db.predictions
  exact hsorted.imp_of_mem
    (fun ha hb hr => hmono _ (hperm.subset hb) _ (hperm.subset ha) hr)

/-- Witness for claim C8 on the two-record store. -/
theorem list_records_all_newest_first_witness :
    List.Perm (list_records sample_store) sample_store.predictions ∧
    (list_records sample_store).Pairwise (fun a b => b.created_at ≤ a.created_at) :=
  list_records_all_newest_first sample_store (by decide)

/-- Claim C9: the store invariant — every record's price equals
calc_price of its feature fields — is preserved by predict, list and
delete; predict sets the new record's price to calc_price of its
payload at creation; predict keeps every existing record untouched
and delete only ever removes records; list exposes only records
satisfying the invariant. -/
theorem store_invariant_preserved (db : Db) (payload : PredictIn) (now rid : Nat)
    (h : store_invariant db) :
    store_invariant (predict db payload now).1 ∧
    (predict db payload now).2.price = calc_price payload ∧
    (∀ p ∈ db.predictions, p ∈ (predict db payload now).1.predictions) ∧
    (∀ q ∈ list_records db, q.price = calc_price q.toPredictIn) ∧
    store_invariant (delete_record db rid).1 ∧
    (∀ p ∈ (delete_record db rid).1.predictions, p ∈ db.predictions) := by
  have hsub : ∀ p ∈ (delete_record db rid).1.predictions, p ∈ db.predictions := by
    intro p hp
    cases hfind : db.predictions.find? (fun q => q.id == rid) with
    | none =>
      rw [delete_record_missing_eq db rid hfind] at hp
      exact hp
    | some row =>
      rw [delete_record_found_eq db rid row hfind] at hp
      exact (List.eraseP_sublist _).subset hp
  refine ⟨?_, rfl, ?_, ?_, ?_, hsub⟩
  · intro p hp
    rcases List.mem_append.mp hp with hold | hnewm
    · exact h p hold
    · have hpe := List.mem_singleton.mp hnewm
      subst hpe
      rfl
  · intro p hp
    exact List.mem_append_left _ hp
  · intro q hq
    exact h q ((mem_list_records db q).mp hq)
  · intro p hp
    exact h p (hsub p hp)

/-- Witness for claim C9 on the two-record store, a fresh prediction at
time 30 and the deletion of id 1. -/
theorem store_invariant_preserved_witness :
    store_invariant (predict sample_store example_payload 30).1 ∧
    (predict sample_store example_payload 30).2.price = calc_price example_payload ∧
    (∀ p ∈ sample_store.predictions,
      p ∈ (predict sample_store example_payload 30).1.predictions) ∧
    (∀ q ∈ list_records sample_store, q.price = calc_price q.toPredictIn) ∧
    store_invariant (delete_record sample_store 1).1 ∧
    (∀ p ∈ (delete_record sample_store 1).1.predictions, p ∈ sample_store.predictions) :=
  store_invariant_preserved sample_store example_payload 30 1
    (by intro p hp
        have hpe : p = sample_record₁ ∨ p = sample_record₂ := by
          simpa [sample_store] using hp
        rcases hpe with rfl | rfl <;> exact example_payload_price.symm)

/-- Claim C2: when the model declares a non-empty expected-column list,
the aligned row's columns are exactly that list, each column takes
the payload's value when present, the land_size_sqm and
building_size_sqm columns take the land_size and building_size
payload values when those are present, and every remaining column
takes the default 0 or 0.0; alignment is a total function, so an
absent field never makes it fail. -/
theorem align_payload_matches_expected (payload : List (String × PyVal)) (m : SkModel)
    (cols : List String) (hcols : expected_feature_names m = some cols)
    (hne : cols ≠ []) :
    (align_payload payload m).map Prod.fst = cols ∧
    ∀ c ∈ cols,
      (c, align_col payload c) ∈ align_payload payload m ∧
      (∀ v, List.lookup c payload = some v → align_col payload c = v) ∧
      (List.lookup c payload = none → c = "land_size_sqm" →
        ∀ v, List.lookup "land_size" payload = some v → align_col payload c = v) ∧
      (List.lookup c payload = none → c = "building_size_sqm" →
        ∀ v, List.lookup "building_size" payload = some v → align_col payload c = v) ∧
      (List.lookup c payload = none →
        (c = "land_size_sqm" → List.lookup "land_size" payload = none) →
        (c = "building_size_sqm" → List.lookup "building_size" payload = none) →
        (align_col payload c = .int 0 ∨ align_col payload c = .float 0)) := by
  have hrow : align_payload payload m = cols.map (fun c => (c, align_col payload c)) := by
    unfold align_payload
    rw [hcols]
    show (if cols = [] then payload else cols.map (fun c => (c, align_col payload c))) = _
    rw [if_neg hne]
  have hfst : (Prod.fst ∘ fun c : String => (c, align_col payload c)) = id := rfl
  refine ⟨by rw [hrow, List.map_map, hfst, List.map_id], ?_⟩
  intro c hc
  refine ⟨by rw [hrow]; exact List.mem_map_of_mem _ hc, ?_, ?_, ?_, ?_⟩
  · intro v hv
    simp [align_col, hv]
  · intro hnone hcl v hv
    subst hcl
    simp [align_col, hnone, hv]
  · intro hnone hcb v hv
    subst hcb
    simp [align_col, hnone, hv]
  · intro hnone hl hb
    unfold align_col
    rw [hnone]
    split_ifs with h1 h2 h3 h4 h5
    · rw [hl h1.1] at h1
      simp at h1
    · rw [hb h2.1] at h2
      simp at h2
    · left
      rw [← h3, hnone]
      rfl
    · left
      rfl
    · right
      rfl
    · left
      rfl

/-- Witness for claim C2: a five-column model aligned against a
two-field payload. -/
theorem align_payload_matches_expected_witness :
    (align_payload sample_payload sample_model).map Prod.fst =
      ["bedrooms", "land_size_sqm", "above_suburb_median", "price_per_land_sqm",
       "frontage"] ∧
    ∀ c ∈ ["bedrooms", "land_size_sqm", "above_suburb_median", "price_per_land_sqm",
       "frontage"],
      (c, align_col sample_payload c) ∈ align_payload sample_payload sample_model ∧
      (∀ v, List.lookup c sample_payload = some v → align_col sample_payload c = v) ∧
      (List.lookup c sample_payload = none → c = "land_size_sqm" →
        ∀ v, List.lookup "land_size" sample_payload = some v →
          align_col sample_payload c = v) ∧
      (List.lookup c sample_payload = none → c = "building_size_sqm" →
        ∀ v, List.lookup "building_size" sample_payload = some v →
          align_col sample_payload c = v) ∧
      (List.lookup c sample_payload = none →
        (c = "land_size_sqm" → List.lookup "land_size" sample_payload = none) →
        (c = "building_size_sqm" → List.lookup "building_size" sample_payload = none) →
        (align_col sample_payload c = .int 0 ∨ align_col sample_payload c = .float 0)) :=
  align_payload_matches_expected sample_payload sample_model
    ["bedrooms", "land_size_sqm", "above_suburb_median", "price_per_land_sqm", "frontage"]
    (by rfl) (by decide)

/-- Claim C10: when the best-effort feature-name lookup on the loaded
model finds nothing, alignment returns the caller's payload itself
as the single row — exactly the payload's own fields, with no alias
derivation and no default filling. -/
theorem align_payload_identity_without_schema (payload : List (String × PyVal))
    (m : SkModel) (h : expected_feature_names m = none) :
    align_payload payload m = payload := by
  unfold align_payload
  rw [h]

/-- Witness for claim C10: a pipeline with no fitted feature names
leaves a one-field payload untouched. -/
theorem align_payload_identity_without_schema_witness :
    align_payload [("bedrooms", PyVal.int 3)] no_schema_model =
      [("bedrooms", PyVal.int 3)] :=
  align_payload_identity_without_schema [("bedrooms", PyVal.int 3)] no_schema_model
    (by rfl)

end HousePrice
